import Mathlib

set_option maxRecDepth 20000

/-!
Verification development for the KickrShiftKey bridge
(`src/Archive/wahoo_bike_shift_to_button_gui_006.py`).

The Python module is shallowly embedded: Python dicts become association
lists over `String` keys, mutable globals (`_HELD_BY_BUTTON`, `_last_seq`)
become explicit state threaded through the functions, and the side effects
of `pydirectinput` calls and of the GUI message queue become an explicit
trace of events.  Key-up injection failures (the `try/except` around
`send_key_up` in `release_all_held_keys`) are modelled by a failure oracle
`fails : String → Bool`; a call that "raises" produces no key action and
reports a raised flag where the source lets the exception propagate.
-/

namespace KickrShiftKey

/-- Association-list model of a Python dict: first binding of `k`, i.e. `d.get(k)`. -/
def lookupA {κ α : Type} [DecidableEq κ] (k : κ) : List (κ × α) → Option α
  | [] => none
  | (k', v) :: rest => if k' = k then some v else lookupA k rest

/-- Dict assignment `d[k] = v`: replace in place if present, else append (insertion order). -/
def setA {κ α : Type} [DecidableEq κ] (k : κ) (v : α) : List (κ × α) → List (κ × α)
  | [] => [(k, v)]
  | (k', v') :: rest => if k' = k then (k, v) :: rest else (k', v') :: setA k v rest

/-- Dict removal `d.pop(k, None)` (state part): drop every binding of `k`. -/
def eraseA {κ α : Type} [DecidableEq κ] (k : κ) : List (κ × α) → List (κ × α)
  | [] => []
  | (k', v) :: rest => if k' = k then eraseA k rest else (k', v) :: eraseA k rest

/-- String-keyed, string-valued dict, as used for all the configuration tables. -/
abbrev SMap := List (String × String)

/-- Uppercase hexadecimal digit for `n < 16`. -/
def hexDigit (n : Nat) : Char :=
  match n with
  | 0 => '0' | 1 => '1' | 2 => '2' | 3 => '3' | 4 => '4'
  | 5 => '5' | 6 => '6' | 7 => '7' | 8 => '8' | 9 => '9'
  | 10 => 'A' | 11 => 'B' | 12 => 'C' | 13 => 'D' | 14 => 'E' | _ => 'F'

/-- Digit accumulator for `natHex2`; the fuel argument (any value `≥ n`) keeps the
recursion structural. -/
def natHexCore : Nat → Nat → List Char → List Char
  | 0, _, acc => acc
  | fuel + 1, n, acc =>
    if n < 16 then hexDigit n :: acc
    else natHexCore fuel (n / 16) (hexDigit (n % 16) :: acc)

/-- Python `"%02X" % n`: uppercase hexadecimal, zero-padded to width 2. -/
def natHex2 (n : Nat) : String :=
  let s := String.mk (natHexCore (n + 1) n [])
  if s.length < 2 then "0" ++ s else s

/-- Python `payload.hex().upper()` for a byte string. -/
def bytesHexUpper (payload : List Nat) : String :=
  String.join (payload.map natHex2)

/-- `PREFIX_TO_BUTTON`: short-frame families (first two bytes, as 4 uppercase hex digits). -/
def PREFIX_TO_BUTTON : SMap :=
  [("0001", "Right Up"), ("8000", "Right Down"), ("0008", "Right Steer"),
   ("0004", "Right Shift Up"), ("0002", "Right Shift Down"), ("4000", "Right Brake"),
   ("0200", "Left Up"), ("0400", "Left Down"), ("2000", "Left Steer"),
   ("1000", "Left Shift Up"), ("0800", "Left Shift Down"), ("0100", "Left Brake")]

/-- `BUTTON_TO_KEY`: which key to send for each button. -/
def BUTTON_TO_KEY : SMap :=
  [("Right Up", "7"), ("Right Down", "3"), ("Right Steer", "ArrowRight"),
   ("Right Shift Up", "i"), ("Right Shift Down", "k"), ("Right Brake", "Space"),
   ("Left Up", "3"), ("Left Down", "4"), ("Left Steer", "ArrowLeft"),
   ("Left Shift Up", "i"), ("Left Shift Down", "k"), ("Left Brake", "Space")]

/-- `BUTTON_BEHAVIOR`: per-button behavior; buttons absent from the table default to "tap". -/
def BUTTON_BEHAVIOR : SMap := [("Right Steer", "hold"), ("Left Steer", "hold")]

/-- `KEY_NAME_MAP`: logical key names mapped to pydirectinput key strings. -/
def KEY_NAME_MAP : SMap :=
  [("ArrowUp", "up"), ("ArrowDown", "down"), ("ArrowLeft", "left"), ("ArrowRight", "right"),
   ("Space", "space"), ("Enter", "enter"), ("Tab", "tab"), ("Esc", "esc"), ("Escape", "esc"),
   ("Backspace", "backspace"), ("Delete", "delete"), ("Home", "home"),
   ("End", "end"), ("PageUp", "pageup"), ("PageDown", "pagedown")]

/-- `_to_pydi_key`: `None` for a falsy (empty) name, else the mapped special name
or the name itself. -/
def to_pydi_key (key_name : String) : Option String :=
  if key_name = "" then none
  else
    match lookupA key_name KEY_NAME_MAP with
    | some mapped => some mapped
    | none => some key_name

/-- A pydirectinput call. `down`/`up` additionally carry the logical button name of the
call site (`hold_if_needed` / `release_if_held` / `release_all_held_keys` always know it),
so that issued key-downs and key-ups can be attributed to a button. -/
inductive KAction
  | down (btn k : String)
  | up (btn k : String)
  | tap (k : String)
  deriving DecidableEq

/-- `send_key_tap`: tap a key via pydirectinput, no-op when the name is falsy. -/
def send_key_tap (key_name : String) : List KAction :=
  match to_pydi_key key_name with
  | none => []
  | some k => [KAction.tap k]

/-- `send_key_down`: press and hold; `btn` is the calling button for attribution. -/
def send_key_down (btn key_name : String) : List KAction :=
  match to_pydi_key key_name with
  | none => []
  | some k => [KAction.down btn k]

/-- `send_key_up` under a failure oracle: if `fails` holds for the pydirectinput key,
the underlying call raises (no key action, raised flag set), else one key-up is issued. -/
def send_key_up (fails : String → Bool) (btn key_name : String) : List KAction × Bool :=
  match to_pydi_key key_name with
  | none => ([], false)
  | some k => if fails k then ([], true) else ([KAction.up btn k], false)

/-- `_HELD_BY_BUTTON`: button name → held key name, in dict insertion order. -/
abbrev Held := SMap

/-- `hold_if_needed`: no-op if the button already has an entry, else key-down and record. -/
def hold_if_needed (held : Held) (button_name key_name : String) : Held × List KAction :=
  match lookupA button_name held with
  | some _ => (held, [])
  | none => (held ++ [(button_name, key_name)], send_key_down button_name key_name)

/-- `release_if_held`: pop the entry first, then key-up only if one existed
(`if key_name:` also skips an empty stored name).  The third component is the
raised flag of the unprotected `send_key_up` call (no `try` in the source). -/
def release_if_held (fails : String → Bool) (held : Held) (button_name : String) :
    Held × List KAction × Bool :=
  match lookupA button_name held with
  | none => (held, [], false)
  | some key_name =>
    let held' := eraseA button_name held
    if key_name = "" then (held', [], false)
    else
      let r := send_key_up fails button_name key_name
      (held', r.1, r.2)

/-- Loop body of `release_all_held_keys`: iterate over a snapshot of the dict,
swallow each `send_key_up` failure (`try/except: pass`), and pop each entry. -/
def release_all_loop (fails : String → Bool) :
    List (String × String) → Held → Held × List KAction
  | [], held => (held, [])
  | (btn, key_name) :: rest, held =>
    let acts := (send_key_up fails btn key_name).1
    let held' := eraseA btn held
    let r := release_all_loop fails rest held'
    (r.1, acts ++ r.2)

/-- `release_all_held_keys`: release everything in `_HELD_BY_BUTTON`; never raises
(total function), even when some key-up calls fail. -/
def release_all_held_keys (fails : String → Bool) (held : Held) : Held × List KAction :=
  release_all_loop fails held held

/-- The dict returned by `parse_short_frame`. `pfx` models the `"prefix"` field. -/
structure Evt where
  pfx : String
  name : String
  type : String
  seq : Nat
  rrHex : String
  deriving DecidableEq

/-- `parse_short_frame`: a short frame is exactly 3 bytes `[p, q, r]`;
the 4-hex-digit family code from `p, q` must be in `PREFIX_TO_BUTTON`;
bit 7 of `r` selects press/release and its low 7 bits are the rolling sequence. -/
def parse_short_frame (payload : List Nat) : Option Evt :=
  match payload with
  | [p, q, r] =>
    let pfx := natHex2 p ++ natHex2 q
    match lookupA pfx PREFIX_TO_BUTTON with
    | none => none
    | some name =>
      let pressed := Nat.land r 0x80 != 0
      let seq := Nat.land r 0x7F
      let ev_type := if pressed then "press" else "release"
      some ⟨pfx, name, ev_type, seq, natHex2 r⟩
  | _ => none

/-- `_last_seq`: last sequence handled per `(prefix, type)`. -/
abbrev Dedup := List ((String × String) × Nat)

/-- `already_handled`: `true` (suppress, state unchanged) iff the stored sequence for
`(pfx, ev_type)` equals `seq`; otherwise store the new sequence and return `false`. -/
def already_handled (st : Dedup) (pfx ev_type : String) (seq : Nat) : Bool × Dedup :=
  let key := (pfx, ev_type)
  if lookupA key st = some seq then (true, st)
  else (false, setA key seq st)

/-- The spec's Dedup Tracker `shouldProcess` is the negation of `already_handled`. -/
def shouldProcess (st : Dedup) (pfx ev_type : String) (seq : Nat) : Bool × Dedup :=
  let r := already_handled st pfx ev_type seq
  (!r.1, r.2)

/-- An observable event of the worker: a message put on the GUI queue (`log`, `status`,
`enableConnect`), a pydirectinput call (`key`), a transport call, or a timed wait. -/
inductive TEv
  | log (s : String)
  | status (s c : String)
  | enableConnect (b : Bool)
  | key (a : KAction)
  | scanCall
  | connectCall
  | startNotifyCall
  | stopNotifyCall
  | disconnectCall
  | sleep (ms : Nat)
  deriving DecidableEq

/-- The dispatch tail of `notification_handler` (lines 392–405): resolve key and
behavior for the button and issue zero or one key-injection calls.  The raised flag
of `release_if_held` is dropped: an exception there escapes the callback after all
modelled effects have happened.  The configuration dicts are passed explicitly
(the source reads the module-level `BUTTON_TO_KEY` / `BUTTON_BEHAVIOR`). -/
def dispatch_action (btnKey behav : SMap) (fails : String → Bool) (held : Held)
    (name ev_type : String) : Held × List KAction :=
  let key_name := lookupA name btnKey
  let behavior := (lookupA name behav).getD "tap"
  if ev_type = "press" then
    match key_name with
    | none => (held, [])
    | some k =>
      if k = "" then (held, [])
      else if behavior = "tap" then (held, send_key_tap k)
      else hold_if_needed held name k
  else
    if behavior = "hold" then
      let r := release_if_held fails held name
      (r.1, r.2.1)
    else (held, [])

/-- `notification_handler`: decode, dedup, log, dispatch.  Returns the updated
dedup and held state and the trace of queue messages and key actions, in order. -/
def notification_handler (btnKey behav : SMap) (debug : Bool) (fails : String → Bool)
    (dedup : Dedup) (held : Held) (payload : List Nat) : Dedup × Held × List TEv :=
  match parse_short_frame payload with
  | none =>
    if debug then (dedup, held, [TEv.log ("[BLE] Other frame: " ++ bytesHexUpper payload)])
    else (dedup, held, [])
  | some evt =>
    let r := already_handled dedup evt.pfx evt.type evt.seq
    if r.1 then (r.2, held, [])
    else
      let line := "[BLE] " ++ evt.name ++ " " ++ evt.type ++ " seq=" ++ toString evt.seq
        ++ " (" ++ evt.pfx ++ evt.rrHex ++ ")"
      let d := dispatch_action btnKey behav fails held evt.name evt.type
      (r.2, d.1, TEv.log line :: d.2.map TEv.key)

/-- Fold of `dispatch_action` over a list of `(name, ev_type)` events, collecting
the key actions in order: a sequence of events routed through the Dispatcher. -/
def run_dispatch (btnKey behav : SMap) (fails : String → Bool) (held : Held) :
    List (String × String) → Held × List KAction
  | [] => (held, [])
  | (name, ty) :: rest =>
    let d := dispatch_action btnKey behav fails held name ty
    let r := run_dispatch btnKey behav fails d.1 rest
    (r.1, d.2 ++ r.2)

/-- Number of `keyDown` calls attributed to button `b` in a key-action trace. -/
def cntD (b : String) (tr : List KAction) : Nat :=
  tr.countP (fun a => match a with | KAction.down b' _ => b' == b | _ => false)

/-- Number of `keyUp` calls attributed to button `b` in a key-action trace. -/
def cntU (b : String) (tr : List KAction) : Nat :=
  tr.countP (fun a => match a with | KAction.up b' _ => b' == b | _ => false)

/-- 1 when the registry holds a real (non-empty) key for button `b`, else 0. -/
def heldBit (b : String) (held : Held) : Nat :=
  match lookupA b held with
  | some k => if k = "" then 0 else 1
  | none => 0

/-- Fold of `notification_handler` (with the module's configuration dicts) over the
frames delivered while Listening. -/
def process_frames (debug : Bool) (fails : String → Bool) (dedup : Dedup) (held : Held) :
    List (List Nat) → Dedup × Held × List TEv
  | [] => (dedup, held, [])
  | f :: rest =>
    let r := notification_handler BUTTON_TO_KEY BUTTON_BEHAVIOR debug fails dedup held f
    let r' := process_frames debug fails r.1 r.2.1 rest
    (r'.1, r'.2.1, r.2.2 ++ r'.2.2)

/-- A discovered BLE device; name and address only appear in log text. -/
structure Dev where
  name : String
  address : String
  deriving DecidableEq

/-- Outcome of `BleakClient(dev).connect()`: an exception, a return with
`is_connected` false, or a connected client. -/
inductive ConnectR
  | raises
  | notConnected
  | connected
  deriving DecidableEq

/-- Outcome of `start_notify`. -/
inductive SubR
  | raises
  | ok
  deriving DecidableEq

/-- Which condition ends the listen loop (line 429): the user's stop request or the
transport's disconnected callback. -/
inductive ListenEnd
  | stopClicked
  | linkDropped
  deriving DecidableEq

/-- Outcome of a guarded teardown call (`stop_notify` / `disconnect`). -/
inductive CallR
  | ok
  | raises
  deriving DecidableEq

/-- Environment of one iteration of the `_ble_main` while-loop: the transport's
behavior and the stop signal's value at each point it is read during that iteration. -/
structure IterEnv where
  stopAtTop : Bool
  scanResult : Option Dev
  connectR : ConnectR
  stopAfterConnFail : Bool
  subR : SubR
  frames : List (List Nat)
  debug : Bool
  listenEnd : ListenEnd
  stopNotifyR : CallR
  disconnectR : CallR
  stopAfterTeardown : Bool
  errText : String
  deriving DecidableEq

/-- State carried across loop iterations: the remembered device handle and the two
module-level dicts. -/
structure MachineS where
  dev : Option Dev
  dedup : Dedup
  held : Held
  deriving DecidableEq

/-- How `_ble_main` (or its caller `_ble_worker`) finishes. `notFound` is the scan
timeout return, `stopped` covers the `break`s and the while-condition exit, `errored`
is an exception reaching `_ble_worker`, `ranOut` only marks an exhausted script. -/
inductive Outcome
  | notFound
  | stopped
  | errored
  | ranOut
  deriving DecidableEq

/-- Result of one loop iteration: halt with an outcome, or continue looping. -/
inductive IterRes
  | halt (o : Outcome)
  | next
  deriving DecidableEq

/-- Output of one loop iteration. -/
structure IterOut where
  res : IterRes
  s : MachineS
  trace : List TEv
  deriving DecidableEq

/-- `RECONNECT_DELAY_S = 1.5` seconds, in milliseconds. -/
def RECONNECT_DELAY_MS : Nat := 1500

/-- The `finally` cleanup (lines 432–452): `stop_notify` if notifications were on,
`disconnect` if still connected — each in its own `try/except` with a log — and then,
always, `release_all_held_keys`. -/
def teardown_trace (env : IterEnv) (fails : String → Bool) (notifyOn isConnected : Bool)
    (held : Held) : Held × List TEv :=
  let t1 : List TEv :=
    if notifyOn then
      match env.stopNotifyR with
      | CallR.ok => [TEv.stopNotifyCall, TEv.log "[BLE] Notifications stopped."]
      | CallR.raises => [TEv.stopNotifyCall, TEv.log ("[BLE] stop_notify error: " ++ env.errText)]
    else []
  let t2 : List TEv :=
    if isConnected then
      match env.disconnectR with
      | CallR.ok => [TEv.disconnectCall, TEv.log "[BLE] Disconnected from device."]
      | CallR.raises => [TEv.disconnectCall, TEv.log ("[BLE] disconnect error: " ++ env.errText)]
    else []
  let r := release_all_held_keys fails held
  (r.1, t1 ++ t2 ++ r.2.map TEv.key)

/-- The messages `_ble_worker` emits when an exception escapes `_ble_main`. -/
def worker_error_msgs (env : IterEnv) : List TEv :=
  [TEv.log ("[BLE] Error: " ++ env.errText), TEv.status "Error" "red", TEv.enableConnect true]

/-- One iteration of the `_ble_main` loop from the `Found … connecting` log on
(device `d` already in hand). -/
def iter_after_scan (fails : String → Bool) (env : IterEnv) (s : MachineS) (d : Dev)
    (tr0 : List TEv) : IterOut :=
  let tr1 := tr0 ++ [TEv.log ("[BLE] Found " ++ d.name ++ " (" ++ d.address ++ ") — connecting…"),
                     TEv.connectCall]
  match env.connectR with
  | ConnectR.raises =>
    let td := teardown_trace env fails false false s.held
    { res := IterRes.halt Outcome.errored,
      s := { dev := some d, dedup := s.dedup, held := td.1 },
      trace := tr1 ++ td.2 ++ worker_error_msgs env }
  | ConnectR.notConnected =>
    let tr2 := tr1 ++ [TEv.log "[BLE] Failed to connect.", TEv.status "Error" "red"]
    let td := teardown_trace env fails false false s.held
    if env.stopAfterConnFail then
      { res := IterRes.halt Outcome.stopped,
        s := { dev := none, dedup := s.dedup, held := td.1 },
        trace := tr2 ++ td.2 }
    else
      { res := IterRes.next,
        s := { dev := none, dedup := s.dedup, held := td.1 },
        trace := tr2 ++ [TEv.sleep RECONNECT_DELAY_MS] ++ td.2 }
  | ConnectR.connected =>
    let tr2 := tr1 ++ [TEv.log "[BLE] Connected. Subscribing to notifications…",
                       TEv.startNotifyCall]
    match env.subR with
    | SubR.raises =>
      let td := teardown_trace env fails false true s.held
      { res := IterRes.halt Outcome.errored,
        s := { dev := some d, dedup := s.dedup, held := td.1 },
        trace := tr2 ++ td.2 ++ worker_error_msgs env }
    | SubR.ok =>
      let tr3 := tr2 ++ [TEv.status "Connected" "green",
                         TEv.log "[BLE] Listening (short-frames only)."]
      let pf := process_frames env.debug fails s.dedup s.held env.frames
      let td := teardown_trace env fails true (env.listenEnd == ListenEnd.stopClicked) pf.2.1
      let tr4 := tr3 ++ pf.2.2 ++ td.2
      if env.listenEnd == ListenEnd.stopClicked || env.stopAfterTeardown then
        { res := IterRes.halt Outcome.stopped,
          s := { dev := some d, dedup := pf.1, held := td.1 },
          trace := tr4 ++ [TEv.status "Disconnected" "gray", TEv.enableConnect true] }
      else
        { res := IterRes.next,
          s := { dev := some d, dedup := pf.1, held := td.1 },
          trace := tr4 ++ [TEv.status "Reconnecting…" "orange",
                           TEv.log "[BLE] Will retry in 1.5s…",
                           TEv.sleep RECONNECT_DELAY_MS] }

/-- One iteration of the `_ble_main` while-loop body (lines 353–464), given that the
while-condition was already checked.  Scanning happens before the `try` block, so a
not-found scan returns without any cleanup. -/
def iterate (fails : String → Bool) (env : IterEnv) (s : MachineS) : IterOut :=
  match s.dev with
  | some d => iter_after_scan fails env s d []
  | none =>
    let trS := [TEv.status "Scanning…" "orange", TEv.log "[BLE] Scanning...", TEv.scanCall]
    match env.scanResult with
    | none =>
      { res := IterRes.halt Outcome.notFound,
        s := { s with dev := none },
        trace := trS ++ [TEv.log "[BLE] Device not found. Is the bike on / advertising?",
                         TEv.status "Not found" "red", TEv.enableConnect true] }
    | some d => iter_after_scan fails env s d trS

/-- `_ble_main` as a loop over a script of per-iteration environments.  The
while-condition (`stop_event`) is checked before each iteration; the Disconnected
status and `enable_connect` messages of the stop paths are emitted inside
`iter_after_scan`, the plain while-condition exit emits nothing. -/
def run (fails : String → Bool) : List IterEnv → MachineS → Outcome × List TEv
  | [], _ => (Outcome.ranOut, [])
  | env :: rest, s =>
    if env.stopAtTop then (Outcome.stopped, [])
    else
      let o := iterate fails env s
      match o.res with
      | IterRes.halt oc => (oc, o.trace)
      | IterRes.next =>
        let r := run fails rest o.s
        (r.1, o.trace ++ r.2)

/-- Initial machine state: no device handle, both bookkeeping dicts empty. -/
def initialS : MachineS := { dev := none, dedup := [], held := [] }

/-- No key-injection failures: the oracle under which injection behaves normally. -/
def noFail : String → Bool := fun _ => false

/-- Predicate picking the key-up actions out of a worker trace. -/
def isKeyUp : TEv → Bool
  | TEv.key (KAction.up _ _) => true
  | _ => false

/-- Scenario for C2: a successful connection, a Hold button ("Right Steer") pressed and
still held, then the link drops with no stop request. -/
def envDropWhileHeld : IterEnv :=
  { stopAtTop := false, scanResult := some ⟨"KICKR BIKE SHIFT 1234", "AA"⟩,
    connectR := ConnectR.connected, stopAfterConnFail := false, subR := SubR.ok,
    frames := [[0x00, 0x08, 0x81]], debug := false, listenEnd := ListenEnd.linkDropped,
    stopNotifyR := CallR.ok, disconnectR := CallR.ok, stopAfterTeardown := false,
    errText := "e" }

/-- Scenario for C6, first iteration: successful connect/subscribe/listen, then an
unexpected link drop; no stop request anywhere. -/
def envListenThenDrop : IterEnv :=
  { stopAtTop := false, scanResult := some ⟨"KICKR BIKE SHIFT 1234", "AA"⟩,
    connectR := ConnectR.connected, stopAfterConnFail := false, subR := SubR.ok,
    frames := [], debug := false, listenEnd := ListenEnd.linkDropped,
    stopNotifyR := CallR.ok, disconnectR := CallR.ok, stopAfterTeardown := false,
    errText := "e" }

/-- Scenario for C6, second iteration: the reconnect attempt's `connect()` raises;
still no stop request. -/
def envConnectRaises : IterEnv :=
  { stopAtTop := false, scanResult := some ⟨"KICKR BIKE SHIFT 1234", "AA"⟩,
    connectR := ConnectR.raises, stopAfterConnFail := false, subR := SubR.ok,
    frames := [], debug := false, listenEnd := ListenEnd.linkDropped,
    stopNotifyR := CallR.ok, disconnectR := CallR.ok, stopAfterTeardown := false,
    errText := "boom" }

/-- Scenario for C6: the reconnect attempt connects but its `start_notify` raises;
still no stop request. -/
def envSubscribeRaises : IterEnv :=
  { stopAtTop := false, scanResult := some ⟨"KICKR BIKE SHIFT 1234", "AA"⟩,
    connectR := ConnectR.connected, stopAfterConnFail := false, subR := SubR.raises,
    frames := [], debug := false, listenEnd := ListenEnd.linkDropped,
    stopNotifyR := CallR.ok, disconnectR := CallR.ok, stopAfterTeardown := false,
    errText := "boom" }

/-- Scenario for C7: the stop signal is set while waiting in Reconnecting, so it is
seen at the top of the next loop iteration. -/
def envStopAtTop : IterEnv :=
  { stopAtTop := true, scanResult := some ⟨"KICKR BIKE SHIFT 1234", "AA"⟩,
    connectR := ConnectR.connected, stopAfterConnFail := false, subR := SubR.ok,
    frames := [], debug := false, listenEnd := ListenEnd.linkDropped,
    stopNotifyR := CallR.ok, disconnectR := CallR.ok, stopAfterTeardown := false,
    errText := "e" }

/-- Behavior table with "Right Up" switched to Hold, for the Hold variant of the C9
end-to-end scenario. -/
def BUTTON_BEHAVIOR_RIGHT_UP_HOLD : SMap :=
  [("Right Up", "hold"), ("Right Steer", "hold"), ("Left Steer", "hold")]

/-- The observable events of a Listening iteration from its start up to (and
including) the transport teardown calls — everything that precedes the
`release_all_held_keys` key-ups on an exit from Listening. -/
def listen_exit_pre (fails : String → Bool) (env : IterEnv) (s : MachineS) (d : Dev)
    (tr0 : List TEv) : List TEv :=
  tr0 ++ [TEv.log ("[BLE] Found " ++ d.name ++ " (" ++ d.address ++ ") — connecting…"),
          TEv.connectCall, TEv.log "[BLE] Connected. Subscribing to notifications…",
          TEv.startNotifyCall, TEv.status "Connected" "green",
          TEv.log "[BLE] Listening (short-frames only)."]
    ++ (process_frames env.debug fails s.dedup s.held env.frames).2.2
    ++ (match env.stopNotifyR with
        | CallR.ok => [TEv.stopNotifyCall, TEv.log "[BLE] Notifications stopped."]
        | CallR.raises =>
          [TEv.stopNotifyCall, TEv.log ("[BLE] stop_notify error: " ++ env.errText)])
    ++ (if env.listenEnd == ListenEnd.stopClicked then
          match env.disconnectR with
          | CallR.ok => [TEv.disconnectCall, TEv.log "[BLE] Disconnected from device."]
          | CallR.raises =>
            [TEv.disconnectCall, TEv.log ("[BLE] disconnect error: " ++ env.errText)]
        else [])

/-! Helper lemmas about the association-list dict model. -/

theorem lookupA_setA_self {κ α : Type} [DecidableEq κ] (k : κ) (v : α) (l : List (κ × α)) :
    lookupA k (setA k v l) = some v := by
  induction l with
  | nil => simp [setA, lookupA]
  | cons e rest ih =>
    obtain ⟨k', v'⟩ := e
    by_cases h : k' = k
    · simp [setA, h, lookupA]
    · simp [setA, h, lookupA, ih]

theorem lookupA_eraseA_self {κ α : Type} [DecidableEq κ] (k : κ) (l : List (κ × α)) :
    lookupA k (eraseA k l) = none := by
  induction l with
  | nil => rfl
  | cons e rest ih =>
    obtain ⟨k', v'⟩ := e
    by_cases h : k' = k
    · simp [eraseA, h, ih]
    · simp [eraseA, h, lookupA, ih]

theorem lookupA_eraseA_ne {κ α : Type} [DecidableEq κ] (a b : κ) (l : List (κ × α))
    (h : a ≠ b) : lookupA b (eraseA a l) = lookupA b l := by
  induction l with
  | nil => rfl
  | cons e rest ih =>
    obtain ⟨k', v'⟩ := e
    by_cases h' : k' = a
    · have hkb : k' ≠ b := by rw [h']; exact h
      simp [eraseA, h', lookupA, hkb, ih, h]
    · by_cases h'' : k' = b
      · simp [eraseA, h', lookupA, h'', Ne.symm h]
      · simp [eraseA, h', lookupA, h'', ih]

theorem lookupA_append_single_ne {κ α : Type} [DecidableEq κ] (a b : κ) (v : α)
    (l : List (κ × α)) (h : a ≠ b) : lookupA b (l ++ [(a, v)]) = lookupA b l := by
  induction l with
  | nil => simp [lookupA, h]
  | cons e rest ih =>
    obtain ⟨k', v'⟩ := e
    by_cases h' : k' = b
    · simp [lookupA, h']
    · simp [lookupA, h', ih]

theorem lookupA_append_single_self {κ α : Type} [DecidableEq κ] (b : κ) (v : α)
    (l : List (κ × α)) (h : lookupA b l = none) : lookupA b (l ++ [(b, v)]) = some v := by
  induction l with
  | nil => simp [lookupA]
  | cons e rest ih =>
    obtain ⟨k', v'⟩ := e
    by_cases h' : k' = b
    · simp [lookupA, h'] at h
    · simp [lookupA, h'] at h ⊢
      exact ih h

theorem to_pydi_key_eq_none_iff (k : String) : to_pydi_key k = none ↔ k = "" := by
  unfold to_pydi_key
  by_cases h : k = ""
  · simp [h]
  · simp [h]
    match lookupA k KEY_NAME_MAP with
    | some m => simp
    | none => simp

/-! Claim C3: the Frame Decoder. -/

/-- Claim C3: `parse_short_frame` returns `none` (NotShortFrame) exactly when the input
is not 3 bytes long or the 4-uppercase-hex-digit family code formed big-endian from the
first two bytes is absent from `PREFIX_TO_BUTTON`; otherwise it returns an event whose
pfx is that hex string, whose type is "press" iff bit 7 (0x80) of the third byte is set
and "release" otherwise, and whose sequence is the low 7 bits (mask 0x7F) of the third
byte, computed identically for press and release. -/
theorem C3_parse_short_frame_spec :
    (∀ payload : List Nat, payload.length ≠ 3 → parse_short_frame payload = none) ∧
    (∀ p q r : Nat, lookupA (natHex2 p ++ natHex2 q) PREFIX_TO_BUTTON = none →
      parse_short_frame [p, q, r] = none) ∧
    (∀ (p q r : Nat) (name : String),
      lookupA (natHex2 p ++ natHex2 q) PREFIX_TO_BUTTON = some name →
      parse_short_frame [p, q, r] =
        some ⟨natHex2 p ++ natHex2 q, name,
              if Nat.land r 0x80 ≠ 0 then "press" else "release",
              Nat.land r 0x7F, natHex2 r⟩) := by
  refine ⟨?_, ?_, ?_⟩
  · intro payload h
    match payload with
    | [] => rfl
    | [_] => rfl
    | [_, _] => rfl
    | [_, _, _] => simp at h
    | _ :: _ :: _ :: _ :: _ => rfl
  · intro p q r h
    simp [parse_short_frame, h]
  · intro p q r name h
    by_cases hb : Nat.land r 0x80 = 0
    · simp [parse_short_frame, h, hb]
    · simp [parse_short_frame, h, hb]

/-- Closed instance of Claim C3: a 2-byte frame, an unknown family, and the known frame
`00 01 81` (press of "Right Up" with sequence 1). -/
theorem C3_parse_short_frame_spec_witness :
    parse_short_frame [0, 1] = none ∧
    parse_short_frame [9, 9, 9] = none ∧
    parse_short_frame [0, 1, 0x81] =
      some ⟨natHex2 0 ++ natHex2 1, "Right Up",
            if Nat.land 0x81 0x80 ≠ 0 then "press" else "release",
            Nat.land 0x81 0x7F, natHex2 0x81⟩ :=
  ⟨C3_parse_short_frame_spec.1 [0, 1] (by decide),
   C3_parse_short_frame_spec.2.1 9 9 9 (by decide),
   C3_parse_short_frame_spec.2.2 0 1 0x81 "Right Up" (by decide)⟩

/-! Claim C4: the Dedup Tracker. -/

theorem shouldProcess_stores (st : Dedup) (p t : String) (s : Nat) :
    lookupA (p, t) (shouldProcess st p t s).2 = some s := by
  by_cases h : lookupA (p, t) st = some s
  · simp [shouldProcess, already_handled, h]
  · simp [shouldProcess, already_handled, h, lookupA_setA_self]

/-- Claim C4: `shouldProcess` returns `false` (suppress) iff the stored sequence for
`(prefix, kind)` equals the incoming one; otherwise it stores the new sequence and
returns `true`.  Feeding the same triple twice yields `true` then `false`; a different
sequence for the same key afterwards yields `true` again; on first sight of the key the
entry is created and the result is `true`. -/
theorem C4_dedup_shouldProcess :
    (∀ (st : Dedup) (p t : String) (s : Nat),
      (shouldProcess st p t s).1 = false ↔ lookupA (p, t) st = some s) ∧
    (∀ (st : Dedup) (p t : String) (s : Nat), lookupA (p, t) st ≠ some s →
      (shouldProcess st p t s).1 = true ∧
      lookupA (p, t) (shouldProcess st p t s).2 = some s) ∧
    (∀ (st : Dedup) (p t : String) (s : Nat),
      (shouldProcess (shouldProcess st p t s).2 p t s).1 = false) ∧
    (∀ (st : Dedup) (p t : String) (s s' : Nat), s' ≠ s →
      (shouldProcess (shouldProcess st p t s).2 p t s').1 = true) ∧
    (∀ (st : Dedup) (p t : String) (s : Nat), lookupA (p, t) st = none →
      (shouldProcess st p t s).1 = true ∧
      lookupA (p, t) (shouldProcess st p t s).2 = some s) := by
  have hiff : ∀ (st : Dedup) (p t : String) (s : Nat),
      (shouldProcess st p t s).1 = false ↔ lookupA (p, t) st = some s := by
    intro st p t s
    by_cases h : lookupA (p, t) st = some s
    · simp [shouldProcess, already_handled, h]
    · simp [shouldProcess, already_handled, h]
  refine ⟨hiff, ?_, ?_, ?_, ?_⟩
  · intro st p t s h
    refine ⟨?_, shouldProcess_stores st p t s⟩
    by_cases hb : (shouldProcess st p t s).1 = false
    · exact absurd ((hiff st p t s).mp hb) h
    · simpa using hb
  · intro st p t s
    exact (hiff _ p t s).mpr (shouldProcess_stores st p t s)
  · intro st p t s s' hne
    have hst := shouldProcess_stores st p t s
    by_cases hb : (shouldProcess (shouldProcess st p t s).2 p t s').1 = false
    · have := (hiff _ p t s').mp hb
      rw [hst] at this
      exact absurd (Option.some.inj this) (Ne.symm hne)
    · simpa using hb
  · intro st p t s h
    have hne : lookupA (p, t) st ≠ some s := by simp [h]
    refine ⟨?_, shouldProcess_stores st p t s⟩
    by_cases hb : (shouldProcess st p t s).1 = false
    · exact absurd ((hiff st p t s).mp hb) hne
    · simpa using hb

/-- Closed instance of Claim C4: the prefix–kind key of "Right Up" presses, sequence 1
twice then sequence 2, from the empty tracker. -/
theorem C4_dedup_shouldProcess_witness :
    (shouldProcess ([] : Dedup) "0001" "press" 1).1 = true ∧
    (shouldProcess (shouldProcess ([] : Dedup) "0001" "press" 1).2 "0001" "press" 1).1
      = false ∧
    (shouldProcess (shouldProcess ([] : Dedup) "0001" "press" 1).2 "0001" "press" 2).1
      = true :=
  ⟨(C4_dedup_shouldProcess.2.2.2.2 [] "0001" "press" 1 (by decide)).1,
   C4_dedup_shouldProcess.2.2.1 [] "0001" "press" 1,
   C4_dedup_shouldProcess.2.2.2.1 [] "0001" "press" 1 2 (by decide)⟩

/-! Claim C5 and Claim C10: the Held-Key Registry under key-injection failures. -/

theorem release_all_loop_state_nil (fails : String → Bool) :
    ∀ (l : List (String × String)) (held : Held),
      (∀ e ∈ held, ∃ x ∈ l, x.1 = e.1) → (release_all_loop fails l held).1 = [] := by
  intro l
  induction l with
  | nil =>
    intro held h
    match held with
    | [] => rfl
    | e :: rest => exact absurd (h e (by simp)) (by simp)
  | cons x rest ih =>
    intro held h
    obtain ⟨btn, key_name⟩ := x
    simp only [release_all_loop]
    apply ih
    intro e he
    have hmem : e ∈ held ∧ e.1 ≠ btn := by
      clear h
      induction held with
      | nil => simp [eraseA] at he
      | cons y t iht =>
        obtain ⟨yk, yv⟩ := y
        by_cases hy : yk = btn
        · simp [eraseA, hy] at he
          have := iht he
          exact ⟨List.mem_cons_of_mem _ this.1, this.2⟩
        · simp [eraseA, hy] at he
          rcases he with he | he
          · refine ⟨by simp [he], ?_⟩
            rw [he]
            simpa using hy
          · have := iht he
            exact ⟨List.mem_cons_of_mem _ this.1, this.2⟩
    obtain ⟨x, hx, hxe⟩ := h e hmem.1
    rcases List.mem_cons.mp hx with hx' | hx'
    · exfalso
      apply hmem.2
      rw [← hxe, hx']
    · exact ⟨x, hx', hxe⟩

theorem release_all_held_keys_state_nil (fails : String → Bool) (held : Held) :
    (release_all_held_keys fails held).1 = [] := by
  apply release_all_loop_state_nil
  intro e he
  exact ⟨e, he, rfl⟩

theorem release_all_loop_acts_mem (fails : String → Bool) :
    ∀ (l : List (String × String)) (held : Held), ∀ e ∈ l, ∀ k : String,
      to_pydi_key e.2 = some k → fails k = false →
      KAction.up e.1 k ∈ (release_all_loop fails l held).2 := by
  intro l
  induction l with
  | nil => intro held e he; simp at he
  | cons x rest ih =>
    intro held e he k hk hf
    obtain ⟨btn, key_name⟩ := x
    simp only [release_all_loop, List.mem_append]
    rcases List.mem_cons.mp he with he' | he'
    · left
      subst he'
      simp only [] at hk
      simp [send_key_up, hk, hf]
    · right
      exact ih _ e he' k hk hf

theorem release_all_loop_acts_only_ups (fails : String → Bool) :
    ∀ (l : List (String × String)) (held : Held),
      ∀ a ∈ (release_all_loop fails l held).2,
        ∃ b k, a = KAction.up b k ∧ fails k = false := by
  intro l
  induction l with
  | nil => intro held a ha; simp [release_all_loop] at ha
  | cons x rest ih =>
    intro held a ha
    obtain ⟨btn, key_name⟩ := x
    simp only [release_all_loop, List.mem_append] at ha
    rcases ha with ha | ha
    · unfold send_key_up at ha
      match hpk : to_pydi_key key_name with
      | none => rw [hpk] at ha; simp at ha
      | some k =>
        rw [hpk] at ha
        by_cases hf : fails k
        · simp [hf] at ha
        · simp [hf] at ha
          exact ⟨btn, k, ha, by simpa using hf⟩
    · exact ih _ a ha

/-- Claim C5: `release_all_held_keys` leaves the registry empty for every starting
registry and every pattern of key-up failures; every entry whose key-up does not fail
still gets its key-up even when other entries fail; and it issues nothing but
(non-failing) key-ups.  It never raises: it is a total function — each entry's
`send_key_up` failure is swallowed (its raised flag is dropped by `release_all_loop`). -/
theorem C5_release_all_swallows_failures :
    ∀ (fails : String → Bool) (held : Held),
      (release_all_held_keys fails held).1 = [] ∧
      (∀ e ∈ held, ∀ k : String, to_pydi_key e.2 = some k → fails k = false →
        KAction.up e.1 k ∈ (release_all_held_keys fails held).2) ∧
      (∀ a ∈ (release_all_held_keys fails held).2,
        ∃ b k, a = KAction.up b k ∧ fails k = false) := by
  intro fails held
  exact ⟨release_all_held_keys_state_nil fails held,
         fun e he k hk hf => release_all_loop_acts_mem fails held held e he k hk hf,
         fun a ha => release_all_loop_acts_only_ups fails held held a ha⟩

/-- Closed instance of Claim C5: two held steer buttons, the right one's key-up fails;
the registry still empties and the left one is still released. -/
theorem C5_release_all_swallows_failures_witness :
    (release_all_held_keys (fun k => k == "right")
      [("Right Steer", "ArrowRight"), ("Left Steer", "ArrowLeft")]).1 = [] ∧
    KAction.up "Left Steer" "left" ∈
      (release_all_held_keys (fun k => k == "right")
        [("Right Steer", "ArrowRight"), ("Left Steer", "ArrowLeft")]).2 :=
  ⟨(C5_release_all_swallows_failures (fun k => k == "right")
      [("Right Steer", "ArrowRight"), ("Left Steer", "ArrowLeft")]).1,
   (C5_release_all_swallows_failures (fun k => k == "right")
      [("Right Steer", "ArrowRight"), ("Left Steer", "ArrowLeft")]).2.1
      ("Left Steer", "ArrowLeft") (by decide) "left" (by decide) (by decide)⟩

/-- Claim C10: `release_if_held` pops the registry entry before issuing the key-up, so
after any call — for every failure oracle, including one that makes the key-up raise —
the registry has no entry for that button, and a second call for the same button is a
no-op: state unchanged, no key action, no raise. -/
theorem C10_release_if_held_pops_first :
    ∀ (fails : String → Bool) (held : Held) (name : String),
      lookupA name (release_if_held fails held name).1 = none ∧
      release_if_held fails (release_if_held fails held name).1 name =
        ((release_if_held fails held name).1, [], false) := by
  intro fails held name
  have hnone : lookupA name (release_if_held fails held name).1 = none := by
    unfold release_if_held
    match h : lookupA name held with
    | none => simpa using h
    | some key_name =>
      by_cases hk : key_name = ""
      · simpa [hk] using lookupA_eraseA_self name held
      · simpa [hk] using lookupA_eraseA_self name held
  refine ⟨hnone, ?_⟩
  generalize hX : (release_if_held fails held name).1 = X at hnone ⊢
  unfold release_if_held
  rw [hnone]

/-! Claim C1: the hold lifecycle invariant of the Dispatcher. -/

theorem cntD_append (b : String) (l m : List KAction) :
    cntD b (l ++ m) = cntD b l + cntD b m := by
  simp [cntD, List.countP_append]

theorem cntU_append (b : String) (l m : List KAction) :
    cntU b (l ++ m) = cntU b l + cntU b m := by
  simp [cntU, List.countP_append]

theorem heldBit_le_one (b : String) (h : Held) : heldBit b h ≤ 1 := by
  unfold heldBit
  cases lookupA b h with
  | none => exact Nat.zero_le 1
  | some k => by_cases hk : k = "" <;> simp [hk]

theorem to_pydi_key_of_ne_empty (k : String) (h : k ≠ "") :
    ∃ pk, to_pydi_key k = some pk := by
  cases hpk : to_pydi_key k with
  | none => exact absurd ((to_pydi_key_eq_none_iff k).mp hpk) h
  | some pk => exact ⟨pk, rfl⟩

theorem dispatch_action_counts (btnKey behav : SMap) (held : Held) (b name ty : String) :
    cntD b (dispatch_action btnKey behav noFail held name ty).2 + heldBit b held =
    cntU b (dispatch_action btnKey behav noFail held name ty).2 +
      heldBit b (dispatch_action btnKey behav noFail held name ty).1 := by
  unfold dispatch_action
  by_cases hty : ty = "press"
  · cases hkn : lookupA name btnKey with
    | none => simp [hty, hkn, cntD, cntU]
    | some k =>
      by_cases hk : k = ""
      · simp [hty, hkn, hk, cntD, cntU]
      · obtain ⟨pk, hpk⟩ := to_pydi_key_of_ne_empty k hk
        by_cases hbv : (lookupA name behav).getD "tap" = "tap"
        · simp [hty, hkn, hk, hbv, send_key_tap, hpk, cntD, cntU, List.countP_cons]
        · cases hlh : lookupA name held with
          | some v =>
            simp [hty, hkn, hk, hbv, hold_if_needed, hlh, cntD, cntU]
          | none =>
            by_cases hnb : name = b
            · subst hnb
              have hnew : lookupA name (held ++ [(name, k)]) = some k :=
                lookupA_append_single_self name k held hlh
              simp [hty, hkn, hk, hbv, hold_if_needed, hlh, send_key_down, hpk,
                    cntD, cntU, List.countP_cons, heldBit, hnew]
            · have hnew : lookupA b (held ++ [(name, k)]) = lookupA b held :=
                lookupA_append_single_ne name b k held hnb
              simp [hty, hkn, hk, hbv, hold_if_needed, hlh, send_key_down, hpk,
                    cntD, cntU, List.countP_cons, heldBit, hnew, hnb]
  · by_cases hbv : (lookupA name behav).getD "tap" = "hold"
    · cases hlh : lookupA name held with
      | none => simp [hty, hbv, release_if_held, hlh, cntD, cntU]
      | some key =>
        by_cases hk : key = ""
        · by_cases hnb : name = b
          · subst hnb
            simp [hty, hbv, release_if_held, hlh, hk, cntD, cntU, heldBit,
                  lookupA_eraseA_self]
          · simp [hty, hbv, release_if_held, hlh, hk, cntD, cntU, heldBit,
                  lookupA_eraseA_ne name b held hnb]
        · obtain ⟨pk, hpk⟩ := to_pydi_key_of_ne_empty key hk
          by_cases hnb : name = b
          · subst hnb
            simp [hty, hbv, release_if_held, hlh, hk, send_key_up, hpk, noFail,
                  cntD, cntU, List.countP_cons, heldBit, lookupA_eraseA_self]
          · simp [hty, hbv, release_if_held, hlh, hk, send_key_up, hpk, noFail,
                  cntD, cntU, List.countP_cons, heldBit, hnb,
                  lookupA_eraseA_ne name b held hnb]
    · simp [hty, hbv, cntD, cntU]

theorem run_dispatch_counts (btnKey behav : SMap) (b : String) :
    ∀ (evs : List (String × String)) (held : Held),
      cntD b (run_dispatch btnKey behav noFail held evs).2 + heldBit b held =
      cntU b (run_dispatch btnKey behav noFail held evs).2 +
        heldBit b (run_dispatch btnKey behav noFail held evs).1 := by
  intro evs
  induction evs with
  | nil => intro held; simp [run_dispatch, cntD, cntU]
  | cons e rest ih =>
    intro held
    obtain ⟨name, ty⟩ := e
    have h1 := dispatch_action_counts btnKey behav held b name ty
    have h2 := ih (dispatch_action btnKey behav noFail held name ty).1
    simp only [run_dispatch, cntD_append, cntU_append]
    omega

/-- Claim C1: for every configuration, every sequence of Press/Release events routed
through the Dispatcher, and every Hold-behavior button with a configured output key,
the number of key-down calls issued for that button exceeds the number of key-up calls
by at most 1 (this holds for the whole trace, hence — the event list being universally
quantified — at every point), and immediately after any `release_all_held_keys` call
the registry is empty. -/
theorem C1_hold_lifecycle :
    ∀ (btnKey behav : SMap) (evs : List (String × String)) (b k : String),
      lookupA b btnKey = some k → (lookupA b behav).getD "tap" = "hold" →
      cntD b (run_dispatch btnKey behav noFail [] evs).2 ≤
        cntU b (run_dispatch btnKey behav noFail [] evs).2 + 1 ∧
      ∀ (fails : String → Bool) (h : Held), (release_all_held_keys fails h).1 = [] := by
  intro btnKey behav evs b k _ _
  constructor
  · have hrun := run_dispatch_counts btnKey behav b evs []
    have hbit0 : heldBit b ([] : Held) = 0 := rfl
    have hbit1 : heldBit b (run_dispatch btnKey behav noFail [] evs).1 ≤ 1 :=
      heldBit_le_one b _
    omega
  · exact fun fails h => release_all_held_keys_state_nil fails h

/-- Closed instance of Claim C1: "Right Steer" (Hold, key "ArrowRight") pressed twice
then released, from the empty registry; and `release_all_held_keys` on a one-entry
registry. -/
theorem C1_hold_lifecycle_witness :
    (cntD "Right Steer" (run_dispatch BUTTON_TO_KEY BUTTON_BEHAVIOR noFail []
        [("Right Steer", "press"), ("Right Steer", "press"), ("Right Steer", "release")]).2 ≤
      cntU "Right Steer" (run_dispatch BUTTON_TO_KEY BUTTON_BEHAVIOR noFail []
        [("Right Steer", "press"), ("Right Steer", "press"), ("Right Steer", "release")]).2
        + 1) ∧
    (release_all_held_keys noFail [("Right Steer", "ArrowRight")]).1 = [] :=
  ⟨(C1_hold_lifecycle BUTTON_TO_KEY BUTTON_BEHAVIOR
      [("Right Steer", "press"), ("Right Steer", "press"), ("Right Steer", "release")]
      "Right Steer" "ArrowRight" (by decide) (by decide)).1,
   (C1_hold_lifecycle BUTTON_TO_KEY BUTTON_BEHAVIOR
      [("Right Steer", "press"), ("Right Steer", "press"), ("Right Steer", "release")]
      "Right Steer" "ArrowRight" (by decide) (by decide)).2 noFail
      [("Right Steer", "ArrowRight")]⟩

/-! Claim C8: observability of NotShortFrame frames. -/

/-- Counterexample to Claim C8 as stated: with the Debug checkbox off, the malformed
1-byte frame `00` received while Listening produces no log message at all — it is
silently dropped from observability. -/
theorem C8_counterexample_silent_drop :
    parse_short_frame [0] = none ∧
    notification_handler BUTTON_TO_KEY BUTTON_BEHAVIOR false noFail [] [] [0] =
      ([], [], []) := by
  exact ⟨rfl, rfl⟩

/-- Claim C8 (amended): a frame classified NotShortFrame is surfaced as an
"Other frame" log message only when Debug output is enabled; with Debug off it
produces nothing.  In both cases it never reaches the Dispatcher: the dedup and held
state are unchanged and no key action is issued. -/
theorem C8_amended_notshortframe_logging :
    ∀ (btnKey behav : SMap) (fails : String → Bool) (dedup : Dedup) (held : Held)
      (payload : List Nat), parse_short_frame payload = none →
      notification_handler btnKey behav true fails dedup held payload =
        (dedup, held, [TEv.log ("[BLE] Other frame: " ++ bytesHexUpper payload)]) ∧
      notification_handler btnKey behav false fails dedup held payload =
        (dedup, held, []) := by
  intro btnKey behav fails dedup held payload h
  constructor <;> simp [notification_handler, h]

/-- Closed instance of amended Claim C8, on the malformed 2-byte frame `01 02`. -/
theorem C8_amended_notshortframe_logging_witness :
    notification_handler BUTTON_TO_KEY BUTTON_BEHAVIOR true noFail [] [] [1, 2] =
      ([], [], [TEv.log ("[BLE] Other frame: " ++ bytesHexUpper [1, 2])]) ∧
    notification_handler BUTTON_TO_KEY BUTTON_BEHAVIOR false noFail [] [] [1, 2] =
      ([], [], []) :=
  C8_amended_notshortframe_logging BUTTON_TO_KEY BUTTON_BEHAVIOR noFail [] [] [1, 2]
    (by decide)

/-! Claim C9: the end-to-end press / duplicate / release scenario. -/

/-- Claim C9: in Listening, the frames `00 01 81`, `00 01 81` (duplicate), `00 01 01`
in order emit exactly one tap for "Right Up" under the module's configuration (and
exactly one key-down followed by one key-up when "Right Up" is configured Hold), and
the duplicate frame produces no message at all (so nothing beyond a no-op note). -/
theorem C9_end_to_end_right_up :
    (let s1 := notification_handler BUTTON_TO_KEY BUTTON_BEHAVIOR false noFail [] []
        [0x00, 0x01, 0x81]
     let s2 := notification_handler BUTTON_TO_KEY BUTTON_BEHAVIOR false noFail s1.1 s1.2.1
        [0x00, 0x01, 0x81]
     let s3 := notification_handler BUTTON_TO_KEY BUTTON_BEHAVIOR false noFail s2.1 s2.2.1
        [0x00, 0x01, 0x01]
     s1.2.2 = [TEv.log "[BLE] Right Up press seq=1 (000181)", TEv.key (KAction.tap "7")] ∧
     s2.2.2 = ([] : List TEv) ∧
     s3.2.2 = [TEv.log "[BLE] Right Up release seq=1 (000101)"]) ∧
    (let g1 := notification_handler BUTTON_TO_KEY BUTTON_BEHAVIOR_RIGHT_UP_HOLD false
        noFail [] [] [0x00, 0x01, 0x81]
     let g2 := notification_handler BUTTON_TO_KEY BUTTON_BEHAVIOR_RIGHT_UP_HOLD false
        noFail g1.1 g1.2.1 [0x00, 0x01, 0x81]
     let g3 := notification_handler BUTTON_TO_KEY BUTTON_BEHAVIOR_RIGHT_UP_HOLD false
        noFail g2.1 g2.2.1 [0x00, 0x01, 0x01]
     g1.2.2 ++ g2.2.2 ++ g3.2.2 =
       [TEv.log "[BLE] Right Up press seq=1 (000181)",
        TEv.key (KAction.down "Right Up" "7"),
        TEv.log "[BLE] Right Up release seq=1 (000101)",
        TEv.key (KAction.up "Right Up" "7")]) := by
  decide

/-! Claim C2: placement of the registry sweep on transitions out of Listening. -/

/-- Counterexample to Claim C2 as stated: in the drop-while-held scenario the trace of
the iteration has its (only) key-up at index 13, after the `stop_notify` transport
teardown call at index 11 — so the key-up is not issued prior to every transport call. -/
theorem C2_counterexample_keyup_after_stop_notify :
    (iterate noFail envDropWhileHeld initialS).trace.findIdx
        (fun e => e == TEv.stopNotifyCall) = 11 ∧
    (iterate noFail envDropWhileHeld initialS).trace.findIdx isKeyUp = 13 ∧
    (iterate noFail envDropWhileHeld initialS).trace.countP isKeyUp = 1 := by
  decide

/-- Claim C2 (amended): on every transition out of Listening — whether to Reconnecting
(link drop, stop not requested) or to the stop path — `release_all_held_keys` still
runs before the Reconnecting (resp. Disconnected) status message and before the
iteration ends, but only after the transport teardown calls: the prefix before its
key-ups already contains the `stop_notify` call. -/
theorem C2_amended_releaseAll_before_status :
    ∀ (fails : String → Bool) (env : IterEnv) (s : MachineS) (d : Dev) (tr0 : List TEv),
      env.connectR = ConnectR.connected → env.subR = SubR.ok →
      (env.listenEnd = ListenEnd.linkDropped → env.stopAfterTeardown = false →
        (iter_after_scan fails env s d tr0).trace =
          listen_exit_pre fails env s d tr0
            ++ (release_all_held_keys fails
                (process_frames env.debug fails s.dedup s.held env.frames).2.1).2.map
                TEv.key
            ++ [TEv.status "Reconnecting…" "orange",
                TEv.log "[BLE] Will retry in 1.5s…", TEv.sleep RECONNECT_DELAY_MS] ∧
        TEv.stopNotifyCall ∈ listen_exit_pre fails env s d tr0) ∧
      (env.listenEnd = ListenEnd.stopClicked →
        (iter_after_scan fails env s d tr0).trace =
          listen_exit_pre fails env s d tr0
            ++ (release_all_held_keys fails
                (process_frames env.debug fails s.dedup s.held env.frames).2.1).2.map
                TEv.key
            ++ [TEv.status "Disconnected" "gray", TEv.enableConnect true] ∧
        TEv.stopNotifyCall ∈ listen_exit_pre fails env s d tr0) := by
  intro fails env s d tr0 hconn hsub
  obtain ⟨sTop, scanR, connR, sCF, sbR, frames, dbg, lend, snR, dcR, sTD, eTxt⟩ := env
  simp only at hconn hsub
  subst hconn hsub
  constructor
  · intro hle hst
    simp only at hle hst
    subst hle hst
    cases snR with
    | ok =>
      constructor
      · simp [iter_after_scan, teardown_trace, listen_exit_pre, List.append_assoc]
      · simp [listen_exit_pre]
    | raises =>
      constructor
      · simp [iter_after_scan, teardown_trace, listen_exit_pre, List.append_assoc]
      · simp [listen_exit_pre]
  · intro hle
    simp only at hle
    subst hle
    cases snR with
    | ok =>
      cases dcR with
      | ok =>
        constructor
        · simp [iter_after_scan, teardown_trace, listen_exit_pre, List.append_assoc]
        · simp [listen_exit_pre]
      | raises =>
        constructor
        · simp [iter_after_scan, teardown_trace, listen_exit_pre, List.append_assoc]
        · simp [listen_exit_pre]
    | raises =>
      cases dcR with
      | ok =>
        constructor
        · simp [iter_after_scan, teardown_trace, listen_exit_pre, List.append_assoc]
        · simp [listen_exit_pre]
      | raises =>
        constructor
        · simp [iter_after_scan, teardown_trace, listen_exit_pre, List.append_assoc]
        · simp [listen_exit_pre]

/-- Closed instance of amended Claim C2: the drop-while-held scenario. -/
theorem C2_amended_releaseAll_before_status_witness :
    (iter_after_scan noFail envDropWhileHeld initialS ⟨"KICKR BIKE SHIFT 1234", "AA"⟩
        []).trace =
      listen_exit_pre noFail envDropWhileHeld initialS ⟨"KICKR BIKE SHIFT 1234", "AA"⟩ []
        ++ (release_all_held_keys noFail
            (process_frames envDropWhileHeld.debug noFail initialS.dedup initialS.held
              envDropWhileHeld.frames).2.1).2.map TEv.key
        ++ [TEv.status "Reconnecting…" "orange",
            TEv.log "[BLE] Will retry in 1.5s…", TEv.sleep RECONNECT_DELAY_MS] ∧
    TEv.stopNotifyCall ∈
      listen_exit_pre noFail envDropWhileHeld initialS ⟨"KICKR BIKE SHIFT 1234", "AA"⟩
        [] :=
  (C2_amended_releaseAll_before_status noFail envDropWhileHeld initialS
      ⟨"KICKR BIKE SHIFT 1234", "AA"⟩ [] rfl rfl).1 rfl rfl

/-! Claim C6: recovery behavior of transport failures after the first connection. -/

/-- Counterexample to Claim C6 as stated: a run whose first iteration connects,
subscribes and listens successfully (status Connected) and then suffers a link drop
(status Reconnecting), and whose second iteration's `connect()` raises — with the stop
signal never set — terminates in the worker's Error state instead of retrying through
Reconnecting. -/
theorem C6_counterexample_error_after_first_connection :
    (run noFail [envListenThenDrop, envConnectRaises] initialS).1 = Outcome.errored ∧
    TEv.status "Connected" "green" ∈
      (run noFail [envListenThenDrop, envConnectRaises] initialS).2 ∧
    TEv.status "Reconnecting…" "orange" ∈
      (run noFail [envListenThenDrop, envConnectRaises] initialS).2 := by
  decide

/-- Claim C6 (amended): an unexpected link drop with stop not requested leads back
through the Reconnecting status with the fixed `RECONNECT_DELAY_S` backoff and
continues the loop, and a connect attempt that returns not-connected likewise sleeps
the fixed delay, continues and drops the device handle (forcing a re-scan); but a
raising `connect()` (or `start_notify`) halts the worker in the Error state, and a
re-scan with no device found halts in Not-found — reconnection does not continue
indefinitely in those cases even after a successful first connection. -/
theorem C6_amended_reconnect_behavior :
    (∀ (fails : String → Bool) (env : IterEnv) (s : MachineS) (d : Dev),
      env.connectR = ConnectR.connected → env.subR = SubR.ok →
      env.listenEnd = ListenEnd.linkDropped → env.stopAfterTeardown = false →
      (iter_after_scan fails env s d []).res = IterRes.next ∧
      (iter_after_scan fails env s d []).trace =
        listen_exit_pre fails env s d []
          ++ (release_all_held_keys fails
              (process_frames env.debug fails s.dedup s.held env.frames).2.1).2.map
              TEv.key
          ++ [TEv.status "Reconnecting…" "orange",
              TEv.log "[BLE] Will retry in 1.5s…", TEv.sleep RECONNECT_DELAY_MS]) ∧
    (∀ (fails : String → Bool) (env : IterEnv) (s : MachineS) (d : Dev),
      env.connectR = ConnectR.notConnected → env.stopAfterConnFail = false →
      (iter_after_scan fails env s d []).res = IterRes.next ∧
      (iter_after_scan fails env s d []).s.dev = none ∧
      TEv.sleep RECONNECT_DELAY_MS ∈ (iter_after_scan fails env s d []).trace) ∧
    (∀ (fails : String → Bool) (env : IterEnv) (s : MachineS) (d : Dev) (tr0 : List TEv),
      env.connectR = ConnectR.raises →
      (iter_after_scan fails env s d tr0).res = IterRes.halt Outcome.errored) ∧
    (∀ (fails : String → Bool) (env : IterEnv) (s : MachineS),
      s.dev = none → env.scanResult = none →
      (iterate fails env s).res = IterRes.halt Outcome.notFound) ∧
    (∀ (fails : String → Bool) (env : IterEnv) (s : MachineS) (d : Dev) (tr0 : List TEv),
      env.connectR = ConnectR.connected → env.subR = SubR.raises →
      (iter_after_scan fails env s d tr0).res = IterRes.halt Outcome.errored) := by
  refine ⟨?_, ?_, ?_, ?_, ?_⟩
  · intro fails env s d hconn hsub hle hst
    refine ⟨?_, ((C2_amended_releaseAll_before_status fails env s d [] hconn hsub).1
      hle hst).1⟩
    obtain ⟨sTop, scanR, connR, sCF, sbR, frames, dbg, lend, snR, dcR, sTD, eTxt⟩ := env
    simp only at hconn hsub hle hst
    subst hconn hsub hle hst
    simp [iter_after_scan]
  · intro fails env s d hconn hst
    obtain ⟨sTop, scanR, connR, sCF, sbR, frames, dbg, lend, snR, dcR, sTD, eTxt⟩ := env
    simp only at hconn hst
    subst hconn hst
    refine ⟨?_, ?_, ?_⟩
    · simp [iter_after_scan]
    · simp [iter_after_scan]
    · simp [iter_after_scan, teardown_trace]
  · intro fails env s d tr0 hconn
    obtain ⟨sTop, scanR, connR, sCF, sbR, frames, dbg, lend, snR, dcR, sTD, eTxt⟩ := env
    simp only at hconn
    subst hconn
    simp [iter_after_scan]
  · intro fails env s hdev hscan
    obtain ⟨sdev, sdedup, sheld⟩ := s
    simp only at hdev
    subst hdev
    simp [iterate, hscan]
  · intro fails env s d tr0 hconn hsub
    obtain ⟨sTop, scanR, connR, sCF, sbR, frames, dbg, lend, snR, dcR, sTD, eTxt⟩ := env
    simp only at hconn hsub
    subst hconn hsub
    simp [iter_after_scan]

/-- Closed instance of amended Claim C6: the drop scenario continues the loop, the
raising-connect scenario halts in Error, and the raising-subscribe scenario halts in
Error. -/
theorem C6_amended_reconnect_behavior_witness :
    (iter_after_scan noFail envListenThenDrop initialS
        ⟨"KICKR BIKE SHIFT 1234", "AA"⟩ []).res = IterRes.next ∧
    (iter_after_scan noFail envConnectRaises initialS
        ⟨"KICKR BIKE SHIFT 1234", "AA"⟩ []).res = IterRes.halt Outcome.errored ∧
    (iter_after_scan noFail envSubscribeRaises initialS
        ⟨"KICKR BIKE SHIFT 1234", "AA"⟩ []).res = IterRes.halt Outcome.errored :=
  ⟨(C6_amended_reconnect_behavior.1 noFail envListenThenDrop initialS
      ⟨"KICKR BIKE SHIFT 1234", "AA"⟩ rfl rfl rfl rfl).1,
   C6_amended_reconnect_behavior.2.2.1 noFail envConnectRaises initialS
      ⟨"KICKR BIKE SHIFT 1234", "AA"⟩ [] rfl,
   C6_amended_reconnect_behavior.2.2.2.2 noFail envSubscribeRaises initialS
      ⟨"KICKR BIKE SHIFT 1234", "AA"⟩ [] rfl rfl⟩

/-! Claim C7: the stop signal drains the machine to Stopped. -/

/-- Claim C7: once the stop signal is observed, no further scan or connect attempt is
started and the machine drains to Stopped: a stop observed at the top of the loop (in
particular one set while waiting in Reconnecting) ends the run immediately as Stopped
with no further trace events at all; a stop observed after teardown of a Listening
iteration, or a stop ending the listen loop, halts that iteration as Stopped; and a
stop observed after a failed connect attempt halts as Stopped. -/
theorem C7_stop_drains_to_stopped :
    (∀ (fails : String → Bool) (env : IterEnv) (rest : List IterEnv) (s : MachineS),
      env.stopAtTop = true → run fails (env :: rest) s = (Outcome.stopped, [])) ∧
    (∀ (fails : String → Bool) (env : IterEnv) (s : MachineS) (d : Dev) (tr0 : List TEv),
      env.connectR = ConnectR.connected → env.subR = SubR.ok →
      (env.listenEnd = ListenEnd.stopClicked ∨ env.stopAfterTeardown = true) →
      (iter_after_scan fails env s d tr0).res = IterRes.halt Outcome.stopped) ∧
    (∀ (fails : String → Bool) (env : IterEnv) (s : MachineS) (d : Dev) (tr0 : List TEv),
      env.connectR = ConnectR.notConnected → env.stopAfterConnFail = true →
      (iter_after_scan fails env s d tr0).res = IterRes.halt Outcome.stopped) := by
  refine ⟨?_, ?_, ?_⟩
  · intro fails env rest s h
    simp [run, h]
  · intro fails env s d tr0 hconn hsub hstop
    obtain ⟨sTop, scanR, connR, sCF, sbR, frames, dbg, lend, snR, dcR, sTD, eTxt⟩ := env
    simp only at hconn hsub hstop
    subst hconn hsub
    rcases hstop with hstop | hstop
    · subst hstop
      simp [iter_after_scan]
    · subst hstop
      cases lend with
      | stopClicked => simp [iter_after_scan]
      | linkDropped => simp [iter_after_scan]
  · intro fails env s d tr0 hconn hstop
    obtain ⟨sTop, scanR, connR, sCF, sbR, frames, dbg, lend, snR, dcR, sTD, eTxt⟩ := env
    simp only at hconn hstop
    subst hconn hstop
    simp [iter_after_scan]

/-- Closed instance of Claim C7: stop set while in Reconnecting (after the
listen-then-drop iteration) — the next loop iteration starts no scan or connect and
the run ends as Stopped with an empty further trace. -/
theorem C7_stop_drains_to_stopped_witness :
    run noFail [envStopAtTop] (iterate noFail envListenThenDrop initialS).s =
      (Outcome.stopped, []) :=
  C7_stop_drains_to_stopped.1 noFail envStopAtTop []
    (iterate noFail envListenThenDrop initialS).s rfl

end KickrShiftKey
